import Mathlib

/-!
Verification of the trigger-detection and clip-actuation engine of the
Clip_Automator repository.

The Python sources are shallowly embedded as Lean functions:
* `src/realtime/triggers/viewer_trigger.py`      → `Viewer` namespace
* `src/realtime/triggers/combo_trigger.py`       → `Combo` namespace
* `src/realtime/triggers/excitement_detector.py` → `Excite` namespace
* `src/realtime/triggers/chat_trigger.py`        → `Chat` namespace
* `src/realtime/triggers/dynamic_baseline.py`    → `DynBase` namespace
* `src/realtime/realtime_clipper.py`             → `Actuator` and `Segments` namespaces

Python float arithmetic is modelled as exact arithmetic: `ℚ` everywhere, and
`ℝ` for the one place a square root occurs (`statistics.stdev`).  None of the
statements proved here depends on machine rounding of binary floats.
-/

namespace ClipAuto

/-- Last `n` elements of a list, in order (Python `l[-n:]` for `n ≥ 1`, and
the contents of a `collections.deque(maxlen=n)` after appending all of `l`). -/
def takeLast {α : Type} (n : ℕ) (l : List α) : List α :=
  l.drop (l.length - n)

/-- Python `round(q, 2)`.  Exact-arithmetic model; the half-way tie-breaking
rule is irrelevant here: no value appearing in the claims is a half-way case. -/
def round2 (q : ℚ) : ℚ := (round (q * 100) : ℤ) / 100

/-! ### Configuration constants (`config/settings.py`) -/

def SPIKE_THRESHOLD : ℚ := 3
def POLL_INTERVAL : ℕ := 10
def BASELINE_WINDOW : ℕ := 60
def COOLDOWN_AFTER_SPIKE : ℚ := 30
def CLIP_BEFORE : ℕ := 20
def CLIP_AFTER : ℕ := 25
def CLIP_COOLDOWN : ℚ := 60
def MAX_CLIPS_PER_DAY : ℕ := 50
def HIGH_PRIORITY_CONFIDENCE : ℚ := 9/10
def CHAT_VELOCITY_THRESHOLD : ℚ := 15
def CHAT_WINDOW_SECONDS : ℚ := 10
def KEYWORD_THRESHOLD : ℕ := 8
def SEGMENT_DURATION : ℕ := 10
def SEGMENTS_TO_KEEP : ℕ := 12
def COMBO_WINDOW_SECONDS : ℚ := 10

def CLIP_KEYWORDS : List String :=
  ["CLIP IT", "CLIP THAT", "SOMEONE CLIP", "GET THAT CLIP",
   "NO SHOT", "INSANE", "HOLY SHIT", "WHAT THE FUCK"]

/-- A `TriggerEvent` (`src/realtime/triggers/base.py`), restricted to the
fields the actuator and the claims inspect: `trigger_type`, `confidence`, and
the `"ratio"` entry of `data` (`none` when the key is absent). -/
structure Event where
  triggerType : String
  confidence : ℚ
  ratio : Option ℚ
  deriving DecidableEq, Repr

end ClipAuto

namespace ClipAuto.Viewer

/-- `deque(maxlen=m).append(x)`: keep the last `m` elements. -/
def pushMax (m : ℕ) (l : List ℚ) (x : ℚ) : List ℚ :=
  takeLast m (l ++ [x])

/-- `ViewerTrigger.calculate_baseline`: rolling average of the viewer
history, `0` when the history is empty. -/
def calculateBaseline (l : List ℚ) : ℚ :=
  if l = [] then 0 else l.sum / l.length

/-- The baseline-reset loop after a spike
(`for _ in range(len(self.viewer_history)): self.viewer_history.append(viewers)`):
append the current value `n` times into the bounded deque. -/
def pushN (m : ℕ) : ℕ → List ℚ → ℚ → List ℚ
  | 0, l, _ => l
  | n + 1, l, x => pushN m n (pushMax m l x) x

/-- One `viewer_spike` event as emitted by `ViewerTrigger.start`
(`data["ratio"] = round(ratio, 2)`, `confidence = min(ratio / SPIKE_THRESHOLD, 1.0)`). -/
structure VEvent where
  ratio : ℚ
  confidence : ℚ
  deriving DecidableEq, Repr

/-- One LIVE poll tick of `ViewerTrigger.start` (viewer_trigger.py lines
104-129): append the viewer count to the bounded history, compute the
baseline over the window *including* the sample just appended, and emit a
`viewer_spike` when the baseline is positive and `ratio >= SPIKE_THRESHOLD`;
after emission the window is refilled with the current value.  `m` is the
deque capacity (`int(BASELINE_WINDOW / POLL_INTERVAL)`), `thr` the spike
threshold. -/
def step (m : ℕ) (thr : ℚ) (hist : List ℚ) (v : ℚ) : List ℚ × Option VEvent :=
  let h1 := pushMax m hist v
  let baseline := calculateBaseline h1
  if 0 < baseline then
    let ratio := v / baseline
    if thr ≤ ratio then
      (pushN m h1.length h1 v, some ⟨round2 ratio, min (ratio / thr) 1⟩)
    else (h1, none)
  else (h1, none)

/-- The poll loop over a sequence of viewer counts (one count per poll tick,
the stream staying live and every poll succeeding); collects the emitted
events, each tagged with the 0-based index of the poll that produced it. -/
def run (m : ℕ) (thr : ℚ) (polls : List ℚ) : List ℚ × List (ℕ × VEvent) :=
  (polls.foldl
    (fun (acc : List ℚ × List (ℕ × VEvent) × ℕ) v =>
      let r := step m thr acc.1 v
      (r.1, acc.2.1 ++ (r.2.map (fun e => (acc.2.2, e))).toList, acc.2.2 + 1))
    ([], [], 0)).map id (fun p => p.1)

end ClipAuto.Viewer

namespace ClipAuto.Excite

/-- `EXCITEMENT_EMOTES` of excitement_detector.py. -/
def EXCITEMENT_EMOTES : List String :=
  ["KEKW", "LUL", "OMEGALUL", "PogChamp", "Pog", "POGGERS",
   "monkaW", "monkaS", "LULW", "PepeLaugh"]

/-- `EXCITEMENT_PHRASES` of excitement_detector.py. -/
def EXCITEMENT_PHRASES : List String :=
  ["NO SHOT", "WHAT", "HOW", "BRO", "DUDE", "HOLY", "WTF",
   "OMG", "LETS GO", "NO WAY", "INSANE", "CLIP IT", "CLIP THAT"]

/-- Does `pat` start the character list `l`? -/
def chPre : List Char → List Char → Bool
  | [], _ => true
  | _ :: _, [] => false
  | a :: pa, b :: pb => a == b && chPre pa pb

/-- Python substring test `pat in hay` on character lists. -/
def chSub (pat : List Char) : List Char → Bool
  | [] => chPre pat []
  | b :: hay => chPre pat (b :: hay) || chSub pat hay

/-- `message.upper()` as a character list. -/
def upChars (s : String) : List Char := s.toList.map Char.toUpper

/-- `emote.upper() in message.upper()`. -/
def emoteIn (content emote : String) : Bool := chSub (upChars emote) (upChars content)

/-- `phrase in message.upper()` (the phrase constants are already uppercase). -/
def phraseIn (content phrase : String) : Bool := chSub phrase.toList (upChars content)

/-- `ExcitementDetector._calculate_score`: 0.3 + 0.1 per extra emote (max 2
extras), 0.4 + 0.1 per extra phrase (max 2 extras), total capped at 1.0. -/
def calculateScore (hasE hasP : Bool) (ec pc : ℕ) : ℚ :=
  min ((if hasE then 3/10 + (min (ec - 1) 2 : ℕ) * (1/10) else 0) +
       (if hasP then 4/10 + (min (pc - 1) 2 : ℕ) * (1/10) else 0)) 1

/-- The `excitement_score` field of `ExcitementDetector.check_message`
(score `0` for an empty — falsy — message). -/
def excitementScore (content : String) : ℚ :=
  if content = "" then 0
  else
    let es := EXCITEMENT_EMOTES.filter (emoteIn content)
    let ps := EXCITEMENT_PHRASES.filter (phraseIn content)
    calculateScore (!es.isEmpty) (!ps.isEmpty) es.length ps.length

/-- `ExcitementDetector.detect_emote_flood` at the chat-trigger call site,
where messages are plain `{"text": ...}` dicts with no `"timestamp"` key (so
the time-window filter keeps every message): requires at least 5 messages,
then reports whether any single emote occurs in at least 5 of them. -/
def detectEmoteFlood (msgs : List String) : Bool :=
  if msgs.length < 5 then false
  else EXCITEMENT_EMOTES.any
    (fun e => 5 ≤ (msgs.filter (fun m => emoteIn m e)).length)

end ClipAuto.Excite

namespace ClipAuto.Combo

open ClipAuto

/-- Result of `ComboTrigger.check_combo` (the `time_window` field is the
constant window size and is omitted). -/
structure ComboResult where
  comboType : String
  trig : List String
  confidence : ℚ
  eventCount : ℕ
  deriving DecidableEq, Repr

/-- `ComboTrigger._clean_old_events`: drop from the front of the deque while
the timestamp is older than `now - window`. -/
def pruneEvents (w : ℚ) (evts : List (String × ℚ)) (now : ℚ) : List (String × ℚ) :=
  evts.dropWhile (fun p => p.2 < now - w)

/-- `ComboTrigger.record_event`: append, then prune. -/
def recordEvent (w : ℚ) (evts : List (String × ℚ)) (ty : String) (now : ℚ) :
    List (String × ℚ) :=
  pruneEvents w (evts ++ [(ty, now)]) now

/-- The distinct trigger types currently in the window
(`set(t[0] for t in self.events)`; only its cardinality and membership are
used). -/
def distinctTypes (evts : List (String × ℚ)) : List String :=
  (evts.map Prod.fst).dedup

/-- Occurrences of one trigger type in the window. -/
def countType (evts : List (String × ℚ)) (t : String) : ℕ :=
  (evts.filter (fun p => p.1 == t)).length

/-- `sum(1.0 / trigger_count for _ in range(trigger_count))`. -/
def superBase (n : ℕ) : ℚ := (List.replicate n ((n : ℚ)⁻¹)).sum

/-- Confidence of a named 2-type combo: average over the two required types
of `min(count/3, 1)`, plus the boost, capped at 1, rounded to 2 decimals. -/
def twoComboConfidence (evts : List (String × ℚ)) (t1 t2 : String) (boost : ℚ) : ℚ :=
  round2 (min ((min ((countType evts t1 : ℚ) / 3) 1 +
                min ((countType evts t2 : ℚ) / 3) 1) / 2 + boost) 1)

/-- Is every required type present among the distinct types in the window
(`required_triggers.issubset(trigger_types)`)? -/
def requiredIn (req types : List String) : Bool :=
  req.all (fun t => types.contains t)

/-- `ComboTrigger.check_combo`: prune, then evaluate the rules in the fixed
order `super_combo` (3+ distinct types), `chat_combo`, `hype_moment`,
`clip_worthy` (the insertion order of the `COMBOS` dict); the first match
wins and at most one result is returned. -/
def checkCombo (w : ℚ) (evts : List (String × ℚ)) (now : ℚ) : Option ComboResult :=
  let es := pruneEvents w evts now
  if es = [] then none
  else
    let types := distinctTypes es
    if 3 ≤ types.length then
      some ⟨"super_combo", types, round2 (min (superBase types.length + 3/10) 1), es.length⟩
    else if requiredIn ["chat_velocity", "keyword"] types then
      some ⟨"chat_combo", types, twoComboConfidence es "chat_velocity" "keyword" (15/100), es.length⟩
    else if requiredIn ["viewer_spike", "chat_velocity"] types then
      some ⟨"hype_moment", types, twoComboConfidence es "viewer_spike" "chat_velocity" (2/10), es.length⟩
    else if requiredIn ["keyword", "emote_flood"] types then
      some ⟨"clip_worthy", types, twoComboConfidence es "keyword" "emote_flood" (15/100), es.length⟩
    else none

end ClipAuto.Combo

namespace ClipAuto.Chat

open ClipAuto ClipAuto.Excite ClipAuto.Combo

/-- The `DynamicBaseline` collaborator as seen from
`ChatTrigger._process_chat_message`, abstracted as its two responses after
`add_sample(velocity)` has been performed (the concrete implementation is
embedded separately in the `DynBase` namespace).  `none` models
`DYNAMIC_THRESHOLD_ENABLED = False`. -/
structure DynHooks where
  isSpikeAfterAdd : ℚ → Bool
  thresholdAfterAdd : ℚ → ℚ

/-- Mutable state of a `ChatTrigger`: the message-time deque, the per-keyword
counters (a Python dict: insertion-ordered association list), and the shared
`ComboTrigger` event window. -/
structure ChatState where
  messageTimes : List ℚ
  keywordCounts : List (String × ℕ)
  comboEvents : List (String × ℚ)
  deriving DecidableEq, Repr

/-- `self.keyword_counts.get(k, 0)`. -/
def lookupCount (l : List (String × ℕ)) (k : String) : ℕ :=
  ((l.find? (fun p => p.1 == k)).map Prod.snd).getD 0

/-- `self.keyword_counts[k] = v` (dict update: in-place if present, else
appended). -/
def setCount (l : List (String × ℕ)) (k : String) (v : ℕ) : List (String × ℕ) :=
  if l.any (fun p => p.1 == k) then l.map (fun p => if p.1 == k then (k, v) else p)
  else l ++ [(k, v)]

/-- Accumulator of the keyword loop. -/
structure KWAcc where
  counts : List (String × ℕ)
  events : List Event
  combo : List (String × ℚ)

/-- One iteration of the keyword loop of `_process_chat_message`: on a
substring match increment the counter; at `KEYWORD_THRESHOLD` emit a
`keyword` event (confidence `min(1.0, 0.5 + excitement_score)`), record it in
the combo window, and reset the counter to zero. -/
def kwStep (now : ℚ) (content : String) (exScore : ℚ) (acc : KWAcc) (kw : String) : KWAcc :=
  if emoteIn content kw then
    let c := lookupCount acc.counts kw + 1
    if KEYWORD_THRESHOLD ≤ c then
      ⟨setCount acc.counts kw 0,
       acc.events ++ [⟨"keyword", min 1 (1/2 + exScore), none⟩],
       recordEvent COMBO_WINDOW_SECONDS acc.combo "keyword" now⟩
    else ⟨setCount acc.counts kw c, acc.events, acc.combo⟩
  else acc

/-- Confidence of a `chat_velocity` event
(`min(velocity / max(threshold, CHAT_VELOCITY_THRESHOLD), 1.0)` when the
threshold is truthy, else `min(velocity / CHAT_VELOCITY_THRESHOLD, 1.0)`). -/
def velConfidence (v thr : ℚ) : ℚ :=
  if thr ≠ 0 then min (v / max thr CHAT_VELOCITY_THRESHOLD) 1
  else min (v / CHAT_VELOCITY_THRESHOLD) 1

/-- The message-time window update: append the arrival time, then pop from
the front while older than `now - CHAT_WINDOW_SECONDS`. -/
def newWindow (times : List ℚ) (now : ℚ) : List ℚ :=
  (times ++ [now]).dropWhile (fun t => t < now - CHAT_WINDOW_SECONDS)

/-- `ChatTrigger._process_chat_message` (chat_trigger.py lines 135-234):
track the message time in the 10-second window, compute
`velocity = count / CHAT_WINDOW_SECONDS`, decide a velocity spike (dynamic
baseline when enabled, else the static threshold), run the keyword loop, the
emote-flood check (invoked with only the single current message), and the
combo check; finally wipe the keyword counters when this message opened a
fresh window.  Returns the new state and the fired events in order. -/
def processChatMessage (dyn : Option DynHooks) (st : ChatState) (now : ℚ)
    (content : String) : ChatState × List Event :=
  let mt := newWindow st.messageTimes now
  let velocity : ℚ := mt.length / CHAT_WINDOW_SECONDS
  let isSpk : Bool := match dyn with
    | some h => h.isSpikeAfterAdd velocity
    | none => decide (CHAT_VELOCITY_THRESHOLD ≤ velocity)
  let thr : ℚ := match dyn with
    | some h => h.thresholdAfterAdd velocity
    | none => CHAT_VELOCITY_THRESHOLD
  let velEvents : List Event :=
    if isSpk then [⟨"chat_velocity", velConfidence velocity thr, none⟩] else []
  let combo1 := if isSpk then recordEvent COMBO_WINDOW_SECONDS st.comboEvents "chat_velocity" now
                else st.comboEvents
  let exScore := excitementScore content
  let acc := CLIP_KEYWORDS.foldl (kwStep now content exScore) ⟨st.keywordCounts, [], combo1⟩
  let flood := detectEmoteFlood [content]
  let floodEvents : List Event := if flood then [⟨"emote_flood", exScore, none⟩] else []
  let combo2 := if flood then recordEvent COMBO_WINDOW_SECONDS acc.combo "emote_flood" now
                else acc.combo
  let comboRes := checkCombo COMBO_WINDOW_SECONDS combo2 now
  let comboEvts : List Event := match comboRes with
    | some r => [⟨"combo_" ++ r.comboType, r.confidence, none⟩]
    | none => []
  let counts1 := if mt.length = 1 then [] else acc.counts
  (⟨mt, counts1, pruneEvents COMBO_WINDOW_SECONDS combo2 now⟩,
   velEvents ++ acc.events ++ floodEvents ++ comboEvts)

/-- Feed a sequence of `(received_at, content)` chat messages through
`_process_chat_message`, collecting every fired event. -/
def chatRun (dyn : Option DynHooks) (msgs : List (ℚ × String)) : ChatState × List Event :=
  msgs.foldl
    (fun (p : ChatState × List Event) m =>
      let r := processChatMessage dyn p.1 m.1 m.2
      (r.1, p.2 ++ r.2))
    (⟨[], [], []⟩, [])

end ClipAuto.Chat

namespace ClipAuto.DynBase

/-- `statistics.mean` over the sample values of the rolling window. -/
noncomputable def dmean (l : List ℝ) : ℝ := l.sum / l.length

/-- `statistics.stdev` squared: the sample variance (denominator `n - 1`). -/
noncomputable def svar (l : List ℝ) : ℝ :=
  ((l.map (fun x => (x - dmean l) ^ 2)).sum) / ((l.length : ℝ) - 1)

/-- `DynamicBaseline.get_threshold`: `0.0` with fewer than 2 samples, else
`mean + 2 * stdev`.  The state is the list of sample values currently in the
rolling window (`[v for _, v in self.samples]`). -/
noncomputable def getThreshold (l : List ℝ) : ℝ :=
  if l.length < 2 then 0 else dmean l + 2 * Real.sqrt (svar l)

/-- `DynamicBaseline.is_spike`: `velocity > self.get_threshold()` (strict). -/
noncomputable def isSpike (l : List ℝ) (v : ℝ) : Prop := getThreshold l < v

end ClipAuto.DynBase

namespace ClipAuto.Actuator

open ClipAuto ClipAuto.Excite

/-- The actuation policy constants of `RealtimeClipper` (settings values, kept
as parameters so that claims about other quota values are statable). -/
structure Config where
  maxClipsPerDay : ℕ
  clipCooldown : ℚ
  highPriorityConfidence : ℚ

/-- Per-streamer actuation state: `last_clip_time`, `clips_today`,
`clip_date` (days encoded as integers). -/
structure AState where
  lastClipTime : Option ℚ
  clipsToday : ℕ
  clipDate : ℤ
  deriving DecidableEq, Repr

/-- Environment of one `_on_trigger` call: the current date and time, the
segment list returned by `SegmentRecorder.get_recent_segments`, and whether
the `ClipCreator.create_clip` muxer invocation succeeds (returns a path). -/
structure Env where
  today : ℤ
  now : ℚ
  segments : List ℕ
  muxOk : Bool
  deriving DecidableEq, Repr

/-- Decision taken by one `_on_trigger` call. -/
inductive Outcome where
  | rejectedQuota
  | rejectedCooldown
  | rejectedNoSegments
  | rejectedMux
  | accepted
  deriving DecidableEq, Repr

/-- The high-priority test of `RealtimeClipper._on_trigger` (lines 346-351):
`confidence >= HIGH_PRIORITY_CONFIDENCE`, or
`trigger_type in ["combo", "super_combo", "hype_moment"]`, or
`trigger_type == "viewer_spike" and data.get("ratio", 0) >= 3.0`. -/
def isHighPriority (cfg : Config) (e : Event) : Bool :=
  decide (cfg.highPriorityConfidence ≤ e.confidence) ||
  ["combo", "super_combo", "hype_moment"].contains e.triggerType ||
  (e.triggerType == "viewer_spike" && decide ((3 : ℚ) ≤ e.ratio.getD 0))

/-- Modelled from the spec: the spec's §4.8 step 3 classification,
`confidence ≥ high_priority_confidence OR trigger_type ∈ {combo_*, hype_moment}
OR (trigger_type = viewer_spike AND data.ratio ≥ 3.0)`, used only to compare
the specified classification with the implemented one. -/
def isHighPrioritySpec (cfg : Config) (e : Event) : Bool :=
  decide (cfg.highPriorityConfidence ≤ e.confidence) ||
  chPre "combo_".toList e.triggerType.toList ||
  e.triggerType == "hype_moment" ||
  (e.triggerType == "viewer_spike" && decide ((3 : ℚ) ≤ e.ratio.getD 0))

/-- `RealtimeClipper._on_trigger` (lines 321-391), after the unconditional
logging: roll the daily counter, check the daily quota, check the cooldown
(bypassed for high-priority events), fetch recent segments (reject when
empty), invoke the muxer, and only on muxer success set `last_clip_time` and
increment `clips_today`. -/
def onTrigger (cfg : Config) (s : AState) (env : Env) (e : Event) : AState × Outcome :=
  let s1 : AState :=
    if env.today = s.clipDate then s else { s with clipDate := env.today, clipsToday := 0 }
  if cfg.maxClipsPerDay ≤ s1.clipsToday then (s1, .rejectedQuota)
  else
    let hp := isHighPriority cfg e
    let coolBlock : Bool := match s1.lastClipTime with
      | some t => !hp && decide (env.now - t < cfg.clipCooldown)
      | none => false
    if coolBlock then (s1, .rejectedCooldown)
    else if env.segments = [] then (s1, .rejectedNoSegments)
    else if env.muxOk then
      ({ s1 with lastClipTime := some env.now, clipsToday := s1.clipsToday + 1 }, .accepted)
    else (s1, .rejectedMux)

/-- The settings values used by `RealtimeClipper`. -/
def cfgDefault : Config :=
  ⟨MAX_CLIPS_PER_DAY, CLIP_COOLDOWN, HIGH_PRIORITY_CONFIDENCE⟩

end ClipAuto.Actuator

namespace ClipAuto.Segments

open ClipAuto

/-- `SegmentRecorder.get_recent_segments` (realtime_clipper.py lines 199-203):
`num_segments = (seconds // SEGMENT_DURATION) + 1`, then
`segments[-num_segments:] if segments else []`. -/
def getRecentSegments (segments : List ℕ) (seconds : ℕ) : List ℕ :=
  if segments = [] then []
  else takeLast (seconds / SEGMENT_DURATION + 1) segments

/-- Modelled from the spec: `recent_covering(seconds)` returning the last
`ceil(seconds / segment_duration) + 1` segments (spec §4.7), used only to
compare the specified count with the implemented one. -/
def recentCoveringSpec (segments : List ℕ) (seconds : ℕ) : List ℕ :=
  if segments = [] then []
  else takeLast ((seconds + SEGMENT_DURATION - 1) / SEGMENT_DURATION + 1) segments

end ClipAuto.Segments

/-! ## Shared lemmas -/

namespace ClipAuto

theorem takeLast_length {α : Type} (n : ℕ) (l : List α) :
    (takeLast n l).length = min n l.length := by
  simp [takeLast]
  omega

theorem takeLast_suffix {α : Type} (n : ℕ) (l : List α) :
    takeLast n l <:+ l :=
  List.drop_suffix _ _

end ClipAuto

namespace ClipAuto.Viewer

theorem pushMax_length (m : ℕ) (l : List ℚ) (x : ℚ) :
    (pushMax m l x).length = min m (l.length + 1) := by
  simp [pushMax, takeLast_length]

theorem pushN_drop (m : ℕ) (x : ℚ) :
    ∀ (k : ℕ) (l : List ℚ), l.length = m → k ≤ m →
      pushN m k l x = l.drop k ++ List.replicate k x := by
  intro k
  induction k with
  | zero => intro l _ _; simp [pushN]
  | succ k ih =>
    intro l hl hk
    have hm1 : 1 ≤ m := by omega
    have hl1 : (pushMax m l x).length = m := by
      rw [pushMax_length, hl]; omega
    have hpm : pushMax m l x = l.drop 1 ++ [x] := by
      unfold pushMax takeLast
      rw [List.length_append, hl]
      simp only [List.length_singleton]
      have : m + 1 - m = 1 := by omega
      rw [this, List.drop_append_of_le_length (by omega)]
    rw [pushN, ih (pushMax m l x) hl1 (by omega), hpm,
      List.drop_append_of_le_length (by simp [hl]; omega)]
    rw [List.drop_drop]
    simp [List.append_assoc, List.replicate_succ]
    rw [Nat.add_comm 1 k]

/-- Refill after a full-window spike: the whole window becomes the current
value. -/
theorem pushN_refill (m : ℕ) (l : List ℚ) (x : ℚ) (h : l.length = m) :
    pushN m l.length l x = List.replicate m x := by
  rw [h, pushN_drop m x m l h le_rfl, ← h, List.drop_length, List.nil_append]

end ClipAuto.Viewer

/-! ## Claim C2 — viewer end-to-end scenario -/

namespace ClipAuto

/-- C2 counterexample: with `spike_threshold = 3.0`, window capacity
`int(40/10) = 4`, the poll sequence `[100,100,100,100,350]` emits NO
`viewer_spike` at all — in particular none at the 5th sample, contradicting
the claim. -/
theorem c2_counterexample :
    (Viewer.run 4 3 [100, 100, 100, 100, 350]).2 = [] := by
  norm_num [Viewer.run, Viewer.step, Viewer.pushMax, takeLast,
    Viewer.calculateBaseline, Viewer.pushN, round2]

/-- C2 (amended): feeding `[100,100,100,100,350]` with `spike_threshold=3.0`,
`baseline_window=40s`, `poll_interval=10s` (window capacity 4) emits no
spike: the current sample is appended to the window *before* the baseline is
computed, so at the 5th sample the window is `[100,100,100,350]`, the
baseline is `162.5`, and the ratio is `350/162.5 = 28/13 ≈ 2.15 < 3`. -/
theorem c2_amended :
    Viewer.run 4 3 [100, 100, 100, 100, 350] = ([100, 100, 100, 350], []) ∧
    Viewer.calculateBaseline [100, 100, 100, 350] = 325/2 ∧
    (350 : ℚ) / Viewer.calculateBaseline [100, 100, 100, 350] = 28/13 ∧
    (28/13 : ℚ) < SPIKE_THRESHOLD := by
  have hb : Viewer.calculateBaseline [100, 100, 100, 350] = 325/2 := by
    norm_num [Viewer.calculateBaseline, List.cons_ne_nil]
  refine ⟨?_, hb, ?_, ?_⟩
  · norm_num [Viewer.run, Viewer.step, Viewer.pushMax, takeLast,
      Viewer.calculateBaseline, Viewer.pushN, round2]
  · rw [hb]; norm_num
  · norm_num [SPIKE_THRESHOLD]

/-! ## Claim C5 — viewer spike emission condition -/

/-- C5 counterexample: `ViewerTrigger` checks no cooldown at all.  With the
default capacity 6 and threshold 3, the poll sequence
`[100,100,100,100,100,2000,40000]` emits spikes at polls 5 and 6 —
consecutive polls, i.e. `poll_interval = 10s < cooldown_after_spike = 30s`
apart — refuting "emitted only if elapsed time since the last accepted spike
is at least the cooldown". -/
theorem c5_counterexample :
    (Viewer.run 6 3 [100, 100, 100, 100, 100, 2000, 40000]).2.map Prod.fst = [5, 6] ∧
    ((6 - 5 : ℚ) * (POLL_INTERVAL : ℚ)) < COOLDOWN_AFTER_SPIKE := by
  constructor
  · norm_num [Viewer.run, Viewer.step, Viewer.pushMax, takeLast,
      Viewer.calculateBaseline, Viewer.pushN, round2]
  · norm_num [POLL_INTERVAL, COOLDOWN_AFTER_SPIKE]

/-- C5 (amended): on a live poll tick a `viewer_spike` is emitted iff the
baseline over the window including the current sample is positive and
`ratio ≥ spike_threshold` — no cooldown condition is checked
(`COOLDOWN_AFTER_SPIKE` is only used by the separate `StreamMonitor`); and
when the window was full, after an emission the window is refilled with the
current value repeated. -/
theorem c5_amended (m : ℕ) (thr : ℚ) (hist : List ℚ) (v : ℚ) :
    ((Viewer.step m thr hist v).2.isSome ↔
      0 < Viewer.calculateBaseline (Viewer.pushMax m hist v) ∧
      thr ≤ v / Viewer.calculateBaseline (Viewer.pushMax m hist v)) ∧
    ((Viewer.pushMax m hist v).length = m → (Viewer.step m thr hist v).2.isSome →
      (Viewer.step m thr hist v).1 = List.replicate m v) := by
  constructor
  · simp only [Viewer.step]
    split_ifs with h1 h2 <;> simp_all
  · intro hm hs
    simp only [Viewer.step] at hs ⊢
    split_ifs at hs ⊢ with h1 h2
    · exact Viewer.pushN_refill m _ v hm
    · simp at hs
    · simp at hs

/-- Witness for `c5_amended` at a concrete emitting input. -/
theorem c5_witness :
    ((Viewer.step 1 1 [] 5).2.isSome ↔
      0 < Viewer.calculateBaseline (Viewer.pushMax 1 [] 5) ∧
      (1 : ℚ) ≤ 5 / Viewer.calculateBaseline (Viewer.pushMax 1 [] 5)) ∧
    (Viewer.step 1 1 [] 5).1 = List.replicate 1 5 :=
  ⟨(c5_amended 1 1 [] 5).1,
   (c5_amended 1 1 [] 5).2
     (by norm_num [Viewer.pushMax, takeLast])
     (by
       rw [(c5_amended 1 1 [] 5).1]
       constructor <;>
         norm_num [Viewer.pushMax, takeLast, Viewer.calculateBaseline])⟩

/-! ## Claim C9 — segment buffer recent-covering query -/

/-- C9 counterexample: `get_recent_segments` uses *floor* division
(`seconds // SEGMENT_DURATION + 1`), not ceiling: for `seconds = 45` over a
7-segment buffer it returns the last 5 segments, while the claimed
`ceil(45/10) + 1 = 6` would return 6. -/
theorem c9_counterexample :
    Segments.getRecentSegments [0, 1, 2, 3, 4, 5, 6] 45 = [2, 3, 4, 5, 6] ∧
    Segments.recentCoveringSpec [0, 1, 2, 3, 4, 5, 6] 45 = [1, 2, 3, 4, 5, 6] ∧
    Segments.getRecentSegments [0, 1, 2, 3, 4, 5, 6] 45 ≠
      Segments.recentCoveringSpec [0, 1, 2, 3, 4, 5, 6] 45 := by
  refine ⟨?_, ?_, ?_⟩ <;> decide

/-- C9 (amended): for every buffer and requested duration `s`,
`get_recent_segments` returns the last `floor(s / segment_duration) + 1`
segments in oldest-first order (a suffix of the buffer), the entire buffer
when fewer exist, and the empty list when the buffer is empty — the returned
length is exactly `min (s / segment_duration + 1) size`. -/
theorem c9_amended (l : List ℕ) (s : ℕ) :
    (Segments.getRecentSegments l s).length =
      min (s / SEGMENT_DURATION + 1) l.length ∧
    Segments.getRecentSegments l s <:+ l := by
  unfold Segments.getRecentSegments
  split_ifs with h
  · subst h; simp
  · exact ⟨takeLast_length _ _, takeLast_suffix _ _⟩

/-! ## Claim C4 — dynamic-baseline spike edge cases -/

/-- C4 counterexample: with fewer than 2 samples `get_threshold` returns
`0.0`, so `is_spike(5.0)` on an *empty* window is `True` — the claim's
"false whenever the rolling window holds fewer than 2 samples" fails. -/
theorem c4_counterexample :
    DynBase.isSpike [] 5 ∧ ([] : List ℝ).length < 2 := by
  constructor
  · simp only [DynBase.isSpike, DynBase.getThreshold]
    norm_num
  · simp

/-- C4 (amended): `is_spike(v)` is false when `v` equals `threshold()`
exactly (the comparison is strict); but with fewer than 2 samples the
threshold is `0.0`, so `is_spike(v)` holds iff `v > 0` — false only for
non-positive values, not unconditionally. -/
theorem c4_amended (l : List ℝ) (v : ℝ) :
    (v = DynBase.getThreshold l → ¬ DynBase.isSpike l v) ∧
    (l.length < 2 → (DynBase.isSpike l v ↔ 0 < v)) := by
  constructor
  · intro h
    simp [DynBase.isSpike, h]
  · intro h
    simp [DynBase.isSpike, DynBase.getThreshold, h]

/-- Witness for `c4_amended`: at the threshold no spike; on an empty window a
positive value is (spuriously) a spike. -/
theorem c4_witness :
    ¬ DynBase.isSpike [] 0 ∧ DynBase.isSpike [] 1 :=
  ⟨(c4_amended [] 0).1 (by simp [DynBase.getThreshold]),
   ((c4_amended [] 1).2 (by simp)).mpr (by norm_num)⟩

end ClipAuto

/-! ## Claim C1 — high-priority classification -/

namespace ClipAuto

/-- C1: the implemented high-priority test checks
`trigger_type in ["combo", "super_combo", "hype_moment"]`, but every
synthesized combo event is typed `combo_<name>`, so a `combo_chat_combo`
event with confidence `0.48 < 0.9` is NOT classified high-priority (while the
spec's `combo_*` rule says it is) and is rejected by the cooldown check. -/
theorem c1_combo_event_not_bypassed :
    Actuator.isHighPriority Actuator.cfgDefault ⟨"combo_chat_combo", 12/25, none⟩ = false ∧
    Actuator.isHighPrioritySpec Actuator.cfgDefault ⟨"combo_chat_combo", 12/25, none⟩ = true ∧
    (Actuator.onTrigger Actuator.cfgDefault ⟨some 0, 0, 0⟩ ⟨0, 10, [1], true⟩
        ⟨"combo_chat_combo", 12/25, none⟩).2 = Actuator.Outcome.rejectedCooldown := by
  refine ⟨?_, ?_, ?_⟩
  · simp only [Actuator.isHighPriority, Actuator.cfgDefault, HIGH_PRIORITY_CONFIDENCE]
    norm_num
    decide
  · simp only [Actuator.isHighPrioritySpec, Actuator.cfgDefault, HIGH_PRIORITY_CONFIDENCE]
    norm_num [Excite.chPre]
  · simp only [Actuator.onTrigger, Actuator.isHighPriority, Actuator.cfgDefault,
      HIGH_PRIORITY_CONFIDENCE, MAX_CLIPS_PER_DAY, CLIP_COOLDOWN]
    norm_num
    simp +decide

/-! ## Claim C3 — no state mutation on failure -/

/-- C3: for every actuator state and trigger event, if the segment list is
empty or the muxer fails, `last_clip_time` is unchanged and (same calendar
day) `clips_today` is unchanged; they are set only on muxer success. -/
theorem c3_failure_no_mutation (cfg : Actuator.Config) (s : Actuator.AState)
    (env : Actuator.Env) (e : Event) :
    ((env.segments = [] ∨ env.muxOk = false) →
      (Actuator.onTrigger cfg s env e).1.lastClipTime = s.lastClipTime ∧
      (env.today = s.clipDate →
        (Actuator.onTrigger cfg s env e).1.clipsToday = s.clipsToday)) ∧
    ((Actuator.onTrigger cfg s env e).1.lastClipTime ≠ s.lastClipTime →
      env.muxOk = true ∧ env.segments ≠ [] ∧
      (Actuator.onTrigger cfg s env e).2 = Actuator.Outcome.accepted) := by
  constructor
  · intro h
    simp only [Actuator.onTrigger]
    split_ifs with h1 h2 h3 h4 h5 <;> simp_all
  · intro h
    simp only [Actuator.onTrigger] at h ⊢
    split_ifs at h ⊢ with h1 h2 h3 h4 h5 <;> simp_all

/-- Witness for `c3_failure_no_mutation`: an empty segment list leaves the
state untouched. -/
theorem c3_witness :
    (Actuator.onTrigger Actuator.cfgDefault ⟨none, 3, 0⟩ ⟨0, 7, [], false⟩
        ⟨"keyword", 1, none⟩).1.lastClipTime = none ∧
    (Actuator.onTrigger Actuator.cfgDefault ⟨none, 3, 0⟩ ⟨0, 7, [], false⟩
        ⟨"keyword", 1, none⟩).1.clipsToday = 3 :=
  ⟨((c3_failure_no_mutation _ _ _ _).1 (Or.inl rfl)).1,
   ((c3_failure_no_mutation _ _ _ _).1 (Or.inl rfl)).2 rfl⟩

/-! ## Claim C6 — daily quota precedes cooldown -/

/-- C6: with `max_clips_per_day = 2`, three high-priority events on the same
calendar day (segments available and the muxer succeeding on each accepted
attempt) yield exactly two accepted clips and a third rejection at the quota
check — regardless of the cooldown configuration and of any prior
`last_clip_time`. -/
theorem c6_two_clips_then_quota (c hpc : ℚ) (s : Actuator.AState)
    (e1 e2 e3 : Event) (env1 env2 env3 : Actuator.Env)
    (h0 : s.clipsToday = 0)
    (hd1 : env1.today = s.clipDate) (hd2 : env2.today = s.clipDate)
    (hd3 : env3.today = s.clipDate)
    (hp1 : Actuator.isHighPriority ⟨2, c, hpc⟩ e1 = true)
    (hp2 : Actuator.isHighPriority ⟨2, c, hpc⟩ e2 = true)
    (hs1 : env1.segments ≠ []) (hm1 : env1.muxOk = true)
    (hs2 : env2.segments ≠ []) (hm2 : env2.muxOk = true) :
    (Actuator.onTrigger ⟨2, c, hpc⟩ s env1 e1).2 = Actuator.Outcome.accepted ∧
    (Actuator.onTrigger ⟨2, c, hpc⟩
        (Actuator.onTrigger ⟨2, c, hpc⟩ s env1 e1).1 env2 e2).2 =
      Actuator.Outcome.accepted ∧
    (Actuator.onTrigger ⟨2, c, hpc⟩
        (Actuator.onTrigger ⟨2, c, hpc⟩
          (Actuator.onTrigger ⟨2, c, hpc⟩ s env1 e1).1 env2 e2).1 env3 e3).2 =
      Actuator.Outcome.rejectedQuota ∧
    (Actuator.onTrigger ⟨2, c, hpc⟩
        (Actuator.onTrigger ⟨2, c, hpc⟩
          (Actuator.onTrigger ⟨2, c, hpc⟩ s env1 e1).1 env2 e2).1 env3 e3).1.clipsToday =
      2 := by
  obtain ⟨lct, ct, cd⟩ := s
  simp only at h0 hd1 hd2 hd3
  subst h0
  have h1 : Actuator.onTrigger ⟨2, c, hpc⟩ ⟨lct, 0, cd⟩ env1 e1 =
      (⟨some env1.now, 1, cd⟩, Actuator.Outcome.accepted) := by
    simp only [Actuator.onTrigger, hd1, hp1]
    cases lct <;> simp_all
  have h2 : Actuator.onTrigger ⟨2, c, hpc⟩ ⟨some env1.now, 1, cd⟩ env2 e2 =
      (⟨some env2.now, 2, cd⟩, Actuator.Outcome.accepted) := by
    simp only [Actuator.onTrigger, hd2, hp2]
    simp_all
  have h3 : Actuator.onTrigger ⟨2, c, hpc⟩ ⟨some env2.now, 2, cd⟩ env3 e3 =
      (⟨some env2.now, 2, cd⟩, Actuator.Outcome.rejectedQuota) := by
    simp only [Actuator.onTrigger, hd3]
    simp_all
  rw [h1, h2, h3]
  simp

/-- Witness for `c6_two_clips_then_quota` at concrete inputs. -/
theorem c6_witness :
    (Actuator.onTrigger ⟨2, 60, 9/10⟩ ⟨some 0, 0, 0⟩ ⟨0, 1, [7], true⟩
        ⟨"viewer_spike", 1, some 4⟩).2 = Actuator.Outcome.accepted ∧
    (Actuator.onTrigger ⟨2, 60, 9/10⟩
        (Actuator.onTrigger ⟨2, 60, 9/10⟩ ⟨some 0, 0, 0⟩ ⟨0, 1, [7], true⟩
          ⟨"viewer_spike", 1, some 4⟩).1 ⟨0, 2, [7], true⟩
        ⟨"viewer_spike", 1, some 4⟩).2 = Actuator.Outcome.accepted ∧
    (Actuator.onTrigger ⟨2, 60, 9/10⟩
        (Actuator.onTrigger ⟨2, 60, 9/10⟩
          (Actuator.onTrigger ⟨2, 60, 9/10⟩ ⟨some 0, 0, 0⟩ ⟨0, 1, [7], true⟩
            ⟨"viewer_spike", 1, some 4⟩).1 ⟨0, 2, [7], true⟩
          ⟨"viewer_spike", 1, some 4⟩).1 ⟨0, 3, [7], true⟩
        ⟨"viewer_spike", 1, some 4⟩).2 = Actuator.Outcome.rejectedQuota ∧
    (Actuator.onTrigger ⟨2, 60, 9/10⟩
        (Actuator.onTrigger ⟨2, 60, 9/10⟩
          (Actuator.onTrigger ⟨2, 60, 9/10⟩ ⟨some 0, 0, 0⟩ ⟨0, 1, [7], true⟩
            ⟨"viewer_spike", 1, some 4⟩).1 ⟨0, 2, [7], true⟩
          ⟨"viewer_spike", 1, some 4⟩).1 ⟨0, 3, [7], true⟩
        ⟨"viewer_spike", 1, some 4⟩).1.clipsToday = 2 :=
  c6_two_clips_then_quota 60 (9/10) ⟨some 0, 0, 0⟩ _ _ _ _ _ _ rfl rfl rfl rfl
    (by norm_num [Actuator.isHighPriority])
    (by norm_num [Actuator.isHighPriority])
    (by simp) rfl (by simp) rfl

end ClipAuto

/-! ## Claim C7 — super_combo priority -/

namespace ClipAuto

/-- `sum(1.0/n for _ in range(n))` is exactly 1 for `n ≠ 0`. -/
theorem superBase_eq_one {n : ℕ} (h : n ≠ 0) : Combo.superBase n = 1 := by
  unfold Combo.superBase
  rw [List.sum_replicate, nsmul_eq_mul, mul_inv_cancel₀ (by exact_mod_cast h)]

/-- C7: whenever the pruned combo window holds at least 3 distinct trigger
types, `check_combo` fires `super_combo` — and nothing else — with
confidence exactly 1 (the cap); by construction at most one combo result is
returned per call, in the fixed priority order. -/
theorem c7_super_combo (w : ℚ) (evts : List (String × ℚ)) (now : ℚ)
    (h : 3 ≤ (Combo.distinctTypes (Combo.pruneEvents w evts now)).length) :
    ∃ r, Combo.checkCombo w evts now = some r ∧
      r.comboType = "super_combo" ∧ r.confidence = 1 := by
  have hne : Combo.pruneEvents w evts now ≠ [] := by
    intro hnil
    rw [hnil] at h
    simp [Combo.distinctTypes] at h
  unfold Combo.checkCombo
  rw [if_neg hne, if_pos h]
  refine ⟨_, rfl, rfl, ?_⟩
  rw [superBase_eq_one (by omega)]
  norm_num [round2, round_eq]

/-- Witness for `c7_super_combo`: three distinct trigger types at time 0. -/
theorem c7_witness :
    ∃ r, Combo.checkCombo 10 [("a", 0), ("b", 0), ("c", 0)] 0 = some r ∧
      r.comboType = "super_combo" ∧ r.confidence = 1 :=
  c7_super_combo 10 [("a", 0), ("b", 0), ("c", 0)] 0 (by
    have hp : Combo.pruneEvents 10 [("a", 0), ("b", 0), ("c", 0)] 0 =
        [("a", 0), ("b", 0), ("c", 0)] := by
      norm_num [Combo.pruneEvents, List.dropWhile]
    rw [hp]
    decide)

end ClipAuto

/-! ## Chat-trigger lemmas -/

namespace ClipAuto

/-- Every event appended by the keyword loop has trigger type `"keyword"`. -/
theorem kwFold_types (now : ℚ) (content : String) (ex : ℚ) :
    ∀ (kws : List String) (acc : Chat.KWAcc) (e : Event),
      e ∈ (kws.foldl (Chat.kwStep now content ex) acc).events →
      e ∈ acc.events ∨ e.triggerType = "keyword" := by
  intro kws
  induction kws with
  | nil =>
    intro acc e he
    exact Or.inl he
  | cons k ks ih =>
    intro acc e he
    simp only [List.foldl_cons] at he
    rcases ih (Chat.kwStep now content ex acc k) e he with h | h
    · simp only [Chat.kwStep] at h
      split_ifs at h with h1 h2
      · rcases List.mem_append.mp h with h3 | h3
        · exact Or.inl h3
        · right
          simp at h3
          rw [h3]
      · exact Or.inl h
      · exact Or.inl h
    · exact Or.inr h

/-- `check_combo` only ever names one of the four configured combos. -/
theorem checkCombo_types (w : ℚ) (evts : List (String × ℚ)) (now : ℚ)
    (r : Combo.ComboResult) (h : Combo.checkCombo w evts now = some r) :
    r.comboType ∈ (["super_combo", "chat_combo", "hype_moment", "clip_worthy"] : List String) := by
  simp only [Combo.checkCombo] at h
  split_ifs at h
  all_goals
    first
      | exact Option.noConfusion h
      | (injection h with h2
         subst h2
         simp)

/-- A fold whose step fixes every accumulator is the identity. -/
theorem foldl_fix {α β : Type} (f : α → β → α) (l : List β)
    (h : ∀ x ∈ l, ∀ a, f a x = a) : ∀ a, l.foldl f a = a := by
  induction l with
  | nil => intro a; rfl
  | cons x xs ih =>
    intro a
    rw [List.foldl_cons, h x (by simp), ih (fun y hy a1 => h y (by simp [hy]) a1)]

/-- A keyword that does not occur in the message leaves the accumulator
unchanged. -/
theorem kwStep_no_match (now ex : ℚ) (content kw : String) (acc : Chat.KWAcc)
    (h : Excite.emoteIn content kw = false) :
    Chat.kwStep now content ex acc kw = acc := by
  unfold Chat.kwStep
  simp [h]

/-- On an empty chat message the keyword loop is a no-op. -/
theorem kwFold_empty (now ex : ℚ) (acc : Chat.KWAcc) :
    CLIP_KEYWORDS.foldl (Chat.kwStep now "" ex) acc = acc := by
  refine foldl_fix _ _ ?_ acc
  intro kw hkw a
  refine kwStep_no_match now ex "" kw a ?_
  revert hkw
  revert kw
  decide

/-- `check_combo` on an empty window yields nothing. -/
theorem checkCombo_nil (w now : ℚ) : Combo.checkCombo w [] now = none := by
  unfold Combo.checkCombo Combo.pruneEvents
  simp

/-- The synthesized `combo_<name>` event of one chat call is never an
`emote_flood` event. -/
theorem comboEvent_not_flood (w : ℚ) (evts : List (String × ℚ)) (now : ℚ) (e : Event)
    (he : e ∈ (match Combo.checkCombo w evts now with
      | some r => [(⟨"combo_" ++ r.comboType, r.confidence, none⟩ : Event)]
      | none => ([] : List Event))) :
    e.triggerType ≠ "emote_flood" := by
  cases hcc : Combo.checkCombo w evts now with
  | none =>
    rw [hcc] at he
    simp at he
  | some r =>
    rw [hcc] at he
    simp at he
    have hty := checkCombo_types w evts now r hcc
    simp only [List.mem_cons, List.not_mem_nil, or_false] at hty
    rw [he]
    show "combo_" ++ r.comboType ≠ "emote_flood"
    rcases hty with h | h | h | h <;> rw [h] <;> decide

end ClipAuto

/-! ## Claim C10 — the emote-flood branch never fires -/

namespace ClipAuto

/-- C10: `detect_emote_flood` returns `false` for every batch of fewer than 5
messages, and — since `_process_chat_message` invokes it on the singleton
batch `[{"text": content}]` — no chat-trigger call ever emits an
`emote_flood` event, whatever the baseline hooks, state, time and content. -/
theorem c10_no_emote_flood :
    (∀ msgs : List String, msgs.length < 5 → Excite.detectEmoteFlood msgs = false) ∧
    (∀ (dyn : Option Chat.DynHooks) (st : Chat.ChatState) (now : ℚ) (content : String),
      "emote_flood" ∉ ((Chat.processChatMessage dyn st now content).2.map Event.triggerType)) := by
  constructor
  · intro msgs h
    unfold Excite.detectEmoteFlood
    rw [if_pos h]
  · intro dyn st now content
    have hf : Excite.detectEmoteFlood [content] = false := by
      unfold Excite.detectEmoteFlood
      rw [if_pos (by simp)]
    simp only [Chat.processChatMessage, hf, Bool.false_eq_true, if_false,
      List.append_nil, List.map_append, List.mem_append, not_or]
    refine ⟨⟨?_, ?_⟩, ?_⟩
    · split <;> simp
    · intro hmem
      simp only [List.mem_map] at hmem
      obtain ⟨e, he, het⟩ := hmem
      rcases kwFold_types now content (Excite.excitementScore content) CLIP_KEYWORDS _ e he with
        h | h
      · simp at h
      · rw [het] at h
        exact absurd h (by decide)
    · intro hmem
      simp only [List.mem_map] at hmem
      obtain ⟨e, he, het⟩ := hmem
      exact absurd het (comboEvent_not_flood _ _ _ _ he)

/-- Witness for `c10_no_emote_flood` at a four-message batch and a concrete
chat call. -/
theorem c10_witness :
    Excite.detectEmoteFlood ["KEKW", "KEKW", "KEKW", "KEKW"] = false ∧
    "emote_flood" ∉
      ((Chat.processChatMessage none ⟨[], [], []⟩ 0 "KEKW").2.map Event.triggerType) :=
  ⟨c10_no_emote_flood.1 _ (by decide),
   c10_no_emote_flood.2 none ⟨[], [], []⟩ 0 "KEKW"⟩

end ClipAuto

/-! ## Claim C8 — chat-velocity scenarios -/

namespace ClipAuto

/-- The message window after `k` earlier messages at time 0 and one more at
time 0: nothing is pruned. -/
theorem newWindow_zeros (k : ℕ) :
    Chat.newWindow (List.replicate k 0) 0 = List.replicate (k + 1) (0 : ℚ) := by
  unfold Chat.newWindow
  rw [← List.replicate_succ', List.replicate_succ, List.dropWhile_cons]
  norm_num [CHAT_WINDOW_SECONDS]

/-- Pruning an empty combo window is a no-op. -/
theorem pruneEvents_nil (w now : ℚ) : Combo.pruneEvents w [] now = [] := rfl

/-- One empty chat message at time 0, with the static threshold, on a window
of `k` earlier messages at time 0, `k + 1 < 150`: nothing fires and only the
window grows. -/
theorem processChat_quiet (k : ℕ) (hk : k + 1 < 150) :
    Chat.processChatMessage none ⟨List.replicate k 0, [], []⟩ 0 "" =
      (⟨List.replicate (k + 1) 0, [], []⟩, []) := by
  have hlt : ¬ (CHAT_VELOCITY_THRESHOLD ≤ ((k : ℚ) + 1) / CHAT_WINDOW_SECONDS) := by
    rw [CHAT_VELOCITY_THRESHOLD, CHAT_WINDOW_SECONDS, not_le, div_lt_iff₀ (by norm_num)]
    have : ((k : ℚ) + 1) < 150 := by exact_mod_cast hk
    linarith
  simp [Chat.processChatMessage, newWindow_zeros, kwFold_empty, Excite.detectEmoteFlood,
    checkCombo_nil, pruneEvents_nil, hlt, ite_self]

/-- `chatRun` over one more message. -/
theorem chatRun_snoc (dyn : Option Chat.DynHooks) (msgs : List (ℚ × String))
    (m : ℚ × String) :
    Chat.chatRun dyn (msgs ++ [m]) =
      ((Chat.processChatMessage dyn (Chat.chatRun dyn msgs).1 m.1 m.2).1,
       (Chat.chatRun dyn msgs).2 ++
         (Chat.processChatMessage dyn (Chat.chatRun dyn msgs).1 m.1 m.2).2) := by
  unfold Chat.chatRun
  rw [List.foldl_append]
  rfl

/-- `n < 150` empty messages at time 0 produce no event at all. -/
theorem chatRun_quiet (n : ℕ) (hn : n < 150) :
    Chat.chatRun none (List.replicate n ((0 : ℚ), "")) =
      (⟨List.replicate n 0, [], []⟩, []) := by
  induction n with
  | zero => rfl
  | succ k ih =>
    rw [List.replicate_succ', chatRun_snoc, ih (by omega), processChat_quiet k hn]
    rfl


/-- The 150th empty message at time 0 fires `chat_velocity` (velocity
`150/10 = 15 ≥ 15`) with confidence 1. -/
theorem processChat_spike :
    Chat.processChatMessage none ⟨List.replicate 149 0, [], []⟩ 0 "" =
      (⟨List.replicate 150 0, [], [("chat_velocity", 0)]⟩,
       [⟨"chat_velocity", 1, none⟩]) := by
  have hp : Combo.pruneEvents COMBO_WINDOW_SECONDS [("chat_velocity", 0)] 0 =
      [("chat_velocity", 0)] := by
    unfold Combo.pruneEvents
    rw [List.dropWhile_cons]
    norm_num [COMBO_WINDOW_SECONDS]
  have hrec : Combo.recordEvent COMBO_WINDOW_SECONDS [] "chat_velocity" 0 =
      [("chat_velocity", 0)] := by
    unfold Combo.recordEvent
    rw [List.nil_append]
    unfold Combo.pruneEvents
    rw [List.dropWhile_cons]
    norm_num [COMBO_WINDOW_SECONDS]
  have hcc : Combo.checkCombo COMBO_WINDOW_SECONDS [("chat_velocity", 0)] 0 = none := by
    unfold Combo.checkCombo
    rw [hp]
    decide
  norm_num [Chat.processChatMessage, newWindow_zeros, kwFold_empty, Excite.detectEmoteFlood,
    hp, hrec, hcc, Chat.velConfidence, CHAT_VELOCITY_THRESHOLD, CHAT_WINDOW_SECONDS, ite_self]

/-- C8 counterexample: 16 chat messages arriving within one second (all at
t = 0), with the static threshold, produce NO `chat_velocity` spike at all —
velocity is `16/10 = 1.6 msg/s`, far below 15.0 — contradicting the claimed
spike with confidence ≈ 1.0. -/
theorem c8_counterexample :
    (Chat.chatRun none (List.replicate 16 ((0 : ℚ), ""))).2 = [] := by
  rw [chatRun_quiet 16 (by omega)]

/-- C8 (amended): velocity is the window count divided by
`CHAT_WINDOW_SECONDS = 10`.  9 messages within a second give velocity `0.9`
and no spike; 16 messages give velocity `1.6` and still no spike; a spike
needs at least 150 messages inside the 10-second window — e.g. 150 messages
within a second fire `chat_velocity` with confidence exactly 1. -/
theorem c8_amended :
    (Chat.chatRun none (List.replicate 9 ((0 : ℚ), ""))).2 = [] ∧
    ((Chat.chatRun none (List.replicate 9 ((0 : ℚ), ""))).1.messageTimes.length : ℚ) /
        CHAT_WINDOW_SECONDS = 9/10 ∧
    ((Chat.chatRun none (List.replicate 16 ((0 : ℚ), ""))).1.messageTimes.length : ℚ) /
        CHAT_WINDOW_SECONDS = 8/5 ∧
    (Chat.chatRun none (List.replicate 150 ((0 : ℚ), ""))).2.map
        (fun e => (e.triggerType, e.confidence)) = [("chat_velocity", 1)] := by
  have h150 : Chat.chatRun none (List.replicate 150 ((0 : ℚ), "")) =
      (⟨List.replicate 150 0, [], [("chat_velocity", 0)]⟩,
       [⟨"chat_velocity", 1, none⟩]) := by
    rw [show (150 : ℕ) = 149 + 1 from rfl, List.replicate_succ', chatRun_snoc,
      chatRun_quiet 149 (by omega)]
    rw [processChat_spike]
    rfl
  rw [chatRun_quiet 9 (by omega), chatRun_quiet 16 (by omega), h150]
  refine ⟨rfl, ?_, ?_, rfl⟩ <;> norm_num [CHAT_WINDOW_SECONDS]
